import Mathlib

/-!
Shallow embedding of the Excel-interviewer backend (`backend/api/main.py`):
the chat state machine over the in-memory session store, the task-artifact
generator, the rubric grading engine, the LLM boundary, and the upload flow.
Machine-level details (HTTP transport, CORS, actual file I/O) are abstracted:
file-system contents are explicit state, and fallible external effects
(OpenAI call, workbook load/save) are modelled by explicit outcome parameters.
-/

namespace Interview

instance (ε α : Type) [DecidableEq ε] [DecidableEq α] : DecidableEq (Except ε α)
  | .error a, .error b =>
    if h : a = b then isTrue (by rw [h]) else isFalse (fun hh => h (by cases hh; rfl))
  | .error _, .ok _ => isFalse (fun hh => by cases hh)
  | .ok _, .error _ => isFalse (fun hh => by cases hh)
  | .ok a, .ok b =>
    if h : a = b then isTrue (by rw [h]) else isFalse (fun hh => h (by cases hh; rfl))

/-- A cell value as seen by openpyxl: absent (`None`), a string (formula text
or text), or a non-string scalar such as a number. -/
inductive CellVal where
  | vnone : CellVal
  | vstr : String → CellVal
  | vint : Int → CellVal
deriving DecidableEq

/-- Python `str.upper()` (ASCII case mapping, as used by the rubric patterns). -/
def pyUpper (s : String) : String := String.mk (s.toList.map Char.toUpper)

/-- Python `str.lower()` (ASCII case mapping, as used on the start keyword). -/
def pyLower (s : String) : String := String.mk (s.toList.map Char.toLower)

/-- Python `str.strip()`: drop leading and trailing whitespace. -/
def pyStrip (s : String) : String :=
  String.mk (((s.toList.dropWhile Char.isWhitespace).reverse.dropWhile Char.isWhitespace).reverse)

/-- Python truthiness of a cell value: `None`, `""` and `0` are falsy. -/
def truthy : CellVal → Bool
  | .vnone => false
  | .vstr s => s != ""
  | .vint n => n != 0

/-- Python `.upper()` on a cell value: succeeds only on strings; calling it on
a non-string raises `AttributeError` (modelled as `Except.error`). -/
def upperVal : CellVal → Except Unit String
  | .vstr s => .ok (pyUpper s)
  | .vnone => .error ()
  | .vint _ => .error ()

/-- Holds when the char list `p` is an initial segment of `h`. -/
def leadsWith : List Char → List Char → Bool
  | [], _ => true
  | _ :: _, [] => false
  | p :: ps, h :: hs => p == h && leadsWith ps hs

/-- Holds when the char list `p` occurs contiguously inside `h`. -/
def occursIn (pat : List Char) : List Char → Bool
  | [] => leadsWith pat []
  | h :: hs => leadsWith pat (h :: hs) || occursIn pat hs

/-- Python `pat in s` for strings: contiguous substring occurrence. -/
def strContains (s pat : String) : Bool := occursIn pat.toList s.toList

/-- The workbook cells inspected by the grader (`sheet[B2]`, `sheet[C2]`). -/
structure Workbook where
  b2 : CellVal
  c2 : CellVal
deriving DecidableEq

/-- A candidate submission: either `openpyxl.load_workbook` fails, or it
yields a workbook with the two checked cells. -/
inductive Submission where
  | unreadable : Submission
  | readable : Workbook → Submission
deriving DecidableEq

/-- Rule 1 check, from `evaluate_excel_file`:
`sheet[B2].value and expected_sum_formula.upper() in sheet[B2].value.upper()`.
Raises (`Except.error`) when the value is truthy but not a string. -/
def checkB2 (v : CellVal) : Except Unit Bool :=
  if truthy v then
    match upperVal v with
    | .error e => .error e
    | .ok u => .ok (strContains u "=SUM(A1:A10)")
  else
    .ok false

/-- Rule 2 check, from `evaluate_excel_file`:
`sheet[C2].value and ("VLOOKUP" in ... or "XLOOKUP" in ...)`. -/
def checkC2 (v : CellVal) : Except Unit Bool :=
  if truthy v then
    match upperVal v with
    | .error e => .error e
    | .ok u => .ok (strContains u "VLOOKUP" || strContains u "XLOOKUP")
  else
    .ok false

def b2_pass_line : String := "Correctly used SUM formula in cell B2."
def b2_fail_line : String := "Missing or incorrect SUM formula in cell B2."
def c2_pass_line : String := "Used a lookup function in cell C2."
def c2_fail_line : String := "Missing lookup function (VLOOKUP/XLOOKUP) in cell C2."
def generic_eval_failure : String := "Error evaluating Excel file."

/-- The body of the `try` block of `evaluate_excel_file`: applies the two
rubric rules in order, accumulating score and feedback; an exception in a
cell check propagates out of the whole body. -/
def evalBody (wb : Workbook) : Except Unit (Int × List String) :=
  match checkB2 wb.b2 with
  | .error e => .error e
  | .ok p1 =>
    let sf1 : Int × List String :=
      if p1 then (100, [b2_pass_line]) else (100 - 50, [b2_fail_line])
    match checkC2 wb.c2 with
    | .error e => .error e
    | .ok p2 =>
      let sf2 : Int × List String :=
        if p2 then (sf1.1, sf1.2 ++ [c2_pass_line])
        else (sf1.1 - 50, sf1.2 ++ [c2_fail_line])
      .ok (max sf2.1 0, sf2.2)

/-- The grader `evaluate_excel_file`: grade a submission; any exception (unreadable file
or a cell check raising on a non-string value) yields `(0, [generic line])`. -/
def evaluate_excel_file : Submission → Int × List String
  | .unreadable => (0, [generic_eval_failure])
  | .readable wb =>
    match evalBody wb with
    | .ok r => r
    | .error _ => (0, [generic_eval_failure])

/-- The formula text of a cell: its string content, or empty for non-text. -/
def cellText : CellVal → String
  | .vstr s => s
  | .vnone => ""
  | .vint _ => ""

/-- Spec-side reading of rule 1: the B2 formula text contains the required
pattern, case-insensitively. -/
def specPassSum (v : CellVal) : Bool :=
  strContains (pyUpper (cellText v)) "=SUM(A1:A10)"

/-- Spec-side reading of rule 2: the C2 formula text contains a lookup
pattern, case-insensitively. -/
def specPassLookup (v : CellVal) : Bool :=
  strContains (pyUpper (cellText v)) "VLOOKUP" || strContains (pyUpper (cellText v)) "XLOOKUP"

/-- Spec-side score: `max (100 - sum of penalties of failed rules) 0`. -/
def spec_score (p1 p2 : Bool) : Int :=
  max (100 - ((if p1 then 0 else 50) + (if p2 then 0 else 50))) 0

/-- Feedback line of rule 1 as a function of its outcome. -/
def rule_line1 (p : Bool) : String := if p then b2_pass_line else b2_fail_line

/-- Feedback line of rule 2 as a function of its outcome. -/
def rule_line2 (p : Bool) : String := if p then c2_pass_line else c2_fail_line

/-- A cell value on which the grader raises: truthy but not a string. -/
def raisesUpper : CellVal → Bool
  | .vint n => n != 0
  | .vnone => false
  | .vstr _ => false

/-- One entry of a conversation history: `{"role": ..., "content": ...}`. -/
structure Msg where
  role : String
  content : String
deriving DecidableEq

/-- The fixed question bank `QUESTIONS`. -/
def QUESTIONS : List String :=
  ["What is the difference between a formula and a function in Excel? Give an example of each.",
   "Explain the purpose of a Pivot Table and when you would use one."]

def final_system_prompt : String :=
  "You are a professional Excel interviewer. Review the entire conversation below. Based on the candidate\x27s answers, provide constructive feedback and an estimated score out of 100."

def ack_system_prompt : String :=
  "You are a professional Excel interviewer. Acknowledge the candidate\x27s response and ask the next question."

def llm_fallback : String :=
  "Sorry, I\x27m having trouble connecting right now. Please try again later."

/-- The conversation sent to the completion API: system prompt plus history. -/
def full_conversation (messages : List Msg) (final_prompt : Bool) : List Msg :=
  ⟨"system", if final_prompt then final_system_prompt else ack_system_prompt⟩ :: messages

/-- The function `get_llm_response`: the boundary to the external text-generation service.
The outcome of the `client.chat.completions.create(...)` call (including any
exception while extracting `.choices[0].message.content`) is the `oracle`
parameter; on success the content is stripped, on any failure the fixed
fallback string is returned. -/
def get_llm_response (oracle : List Msg → Except String String)
    (messages : List Msg) (final_prompt : Bool) : String :=
  match oracle (full_conversation messages final_prompt) with
  | .ok content => pyStrip content
  | .error _ => llm_fallback

/-- Cell assignments of a saved workbook, e.g. `[("A1", "Data1"), ...]`. -/
def SheetContent : Type := List (String × String)

instance : DecidableEq SheetContent := by
  unfold SheetContent
  infer_instance

/-- The two well-known artifact locations: the template file
(`api/task_template.xlsx`) and the task copy (`<tmp>/Task.xlsx`). -/
structure FS where
  template : Option SheetContent
  task : Option SheetContent
deriving DecidableEq

/-- The blank template written by `create_task_excel` when the template file
is absent: column headers only, no data, no formulas. -/
def blank_template : SheetContent := [("A1", "Data1"), ("B1", "Data2"), ("C1", "Result")]

/-- Outcomes of the fallible file operations inside `create_task_excel`:
loading the template and saving the task copy. -/
structure IOFlags where
  loadOk : Bool
  saveOk : Bool
deriving DecidableEq

/-- The generator `create_task_excel`: if the template file does not exist, write the blank
template there (an existing template is kept untouched); then load the
template and save a copy as the task file, overwriting any prior task copy.
Returns the new file-system state and whether the call completed without
raising. -/
def create_task_excel (flags : IOFlags) (fs : FS) : FS × Bool :=
  let tpl : SheetContent := fs.template.getD blank_template
  let fs1 : FS := ⟨some tpl, fs.task⟩
  if flags.loadOk then
    if flags.saveOk then (⟨some tpl, some tpl⟩, true)
    else (fs1, false)
  else (fs1, false)

/-- One session record of `interview_state`. -/
structure Session where
  history : List Msg
  turn : Nat
  conceptual_feedback : String
deriving DecidableEq

/-- The `status` field of a chat response. -/
inductive Status where
  | ongoing : Status
  | not_started : Status
  | task_ready : Status
  | error : Status
deriving DecidableEq

/-- A chat response: `response`, `status`, and the optional
`conceptual_feedback` key. -/
structure ChatResponse where
  response : String
  status : Status
  conceptual_feedback : Option String
deriving DecidableEq

/-- External-effect outcomes a chat turn may consult: the completion-API
oracle and the file-operation outcomes inside `create_task_excel`. -/
structure Env where
  oracle : List Msg → Except String String
  flags : IOFlags

def intro_msg : String :=
  "Hello! I\x27m your AI Excel Interviewer. I\x27ll ask 2 questions about Excel concepts first, then provide a practical task."

def not_started_msg : String := "Please click the start button to begin the interview."
def task_ready_msg : String := "Conceptual questions complete. Please download the practical task."
def task_failed_msg : String := "Failed to generate task file. Interview cannot proceed."
def already_issued_msg : String := "Interview already in progress. Please download the task file."

/-- The endpoint `chat_endpoint`, for one user id: takes that user\x27s entry of
`interview_state` (`none` when absent) and the file-system state, returns the
new entry, new file-system state, and the response. -/
def chat_endpoint (env : Env) (fs : FS) (st : Option Session) (message : String) :
    Option Session × FS × ChatResponse :=
  let user_message := pyStrip message
  if pyLower user_message = "start" ∧ st = none then
    let first_question := QUESTIONS.getD 0 ""
    (some ⟨[⟨"assistant", intro_msg⟩, ⟨"assistant", first_question⟩], 1, ""⟩, fs,
      ⟨intro_msg ++ "\n\n" ++ first_question, .ongoing, none⟩)
  else
    match st with
    | none => (none, fs, ⟨not_started_msg, .not_started, none⟩)
    | some s =>
      let s1 : Session := { s with history := s.history ++ [⟨"user", user_message⟩] }
      if s1.turn < QUESTIONS.length then
        let next_question := QUESTIONS.getD s1.turn ""
        (some { s1 with
                  history := s1.history ++ [⟨"assistant", next_question⟩],
                  turn := s1.turn + 1 }, fs,
          ⟨next_question, .ongoing, none⟩)
      else if s1.turn = QUESTIONS.length then
        let conceptual_feedback := get_llm_response env.oracle s1.history true
        let s2 : Session := { s1 with conceptual_feedback := conceptual_feedback }
        let r := create_task_excel env.flags fs
        if r.2 then
          (some { s2 with turn := s2.turn + 1 }, r.1,
            ⟨task_ready_msg, .task_ready, some conceptual_feedback⟩)
        else
          (some s2, r.1, ⟨task_failed_msg, .error, none⟩)
      else
        (some s1, fs, ⟨already_issued_msg, .task_ready, none⟩)

/-- A sequence of chat turns for the same user, each with its own external
outcomes, threading session entry and file-system state. -/
def run_turns : List (Env × String) → FS → Option Session → Option Session × FS
  | [], fs, st => (st, fs)
  | (e, m) :: rest, fs, st =>
    let r := chat_endpoint e fs st m
    run_turns rest r.2.1 r.1

/-- Python `repr` of a list of strings, as produced by the f-string
`f"... Feedback: {feedback}"` (no element of the grader\x27s feedback contains
a quote, so plain quoting is exact). -/
def pyListRepr (xs : List String) : String :=
  "[" ++ String.intercalate ", " (xs.map (fun s => "\x27" ++ s ++ "\x27")) ++ "]"

/-- The grading-summary message appended to the session history by
`upload_solution`. -/
def grading_summary (score : Int) (feedback : List String) : Msg :=
  ⟨"assistant", "Practical task scored " ++ toString score ++ "/100. Feedback: " ++ pyListRepr feedback⟩

/-- The report string built by `upload_solution`; the LLM-feedback section is
appended only when `final_feedback` is truthy (non-empty). -/
def mkReport (score : Int) (feedback : List String) (final_feedback : String) : String :=
  let base := "Score: " ++ toString score ++ "/100\n\nFeedback:\n- " ++
    String.intercalate "\n- " feedback
  if final_feedback ≠ "" then base ++ "\n\nLLM Feedback:\n" ++ final_feedback else base

/-- External-effect outcomes of one upload request: the completion-API oracle
and whether receiving/writing the uploaded file succeeds. -/
structure UploadEnv where
  oracle : List Msg → Except String String
  writeOk : Bool

/-- Result of `upload_solution`: a success payload `{report: ...}`, or the
500 error response produced by the surrounding `except` clause. -/
inductive UploadResult where
  | report : String → UploadResult
  | httpError : String → UploadResult
deriving DecidableEq

/-- The endpoint `upload_solution`: store the uploaded file (may fail), grade it, and if a
session exists for the (hardcoded) user id, append a grading summary to its
history, obtain final LLM feedback on the full history, and delete the
session; always answer with a combined report on success. -/
def upload_solution (env : UploadEnv) (st : Option Session) (sub : Submission) :
    Option Session × UploadResult :=
  if env.writeOk then
    let graded := evaluate_excel_file sub
    match st with
    | some s =>
      let s1 : Session := { s with history := s.history ++ [grading_summary graded.1 graded.2] }
      let final_feedback := get_llm_response env.oracle s1.history true
      (none, .report (mkReport graded.1 graded.2 final_feedback))
    | none =>
      (none, .report (mkReport graded.1 graded.2 ""))
  else
    (st, .httpError "upload failed")

/-- Concrete external outcomes used to exercise the endpoints. -/
def env0 : Env := ⟨fun _ => Except.ok "ok", ⟨true, true⟩⟩

def uenv0 : UploadEnv := ⟨fun _ => Except.ok "ok", true⟩

def fs0 : FS := ⟨none, none⟩

/-- Conclusion of the amended grading claim: the grader\x27s result on an
openable workbook agrees with the per-rule rubric reading — rule outcomes by
case-insensitive substring containment, feedback lines in rule order, score
clamped into `[0, 100]`. -/
def grade_matches_rubric (wb : Workbook) : Prop :=
  evaluate_excel_file (.readable wb) =
    (spec_score (specPassSum wb.b2) (specPassLookup wb.c2),
     [rule_line1 (specPassSum wb.b2), rule_line2 (specPassLookup wb.c2)]) ∧
  0 ≤ (evaluate_excel_file (.readable wb)).1 ∧
  (evaluate_excel_file (.readable wb)).1 ≤ 100

theorem checkB2_eq (v : CellVal) (h : raisesUpper v = false) :
    checkB2 v = .ok (specPassSum v) := by
  cases v with
  | vnone => decide
  | vstr s =>
    by_cases hs : s = ""
    · subst hs; decide
    · have hs' : (s != "") = true := by simpa using hs
      simp [checkB2, truthy, hs', upperVal, specPassSum, cellText]
  | vint n =>
    have hn : (n != 0) = false := by simpa [raisesUpper] using h
    simp only [checkB2, truthy, hn, Bool.false_eq_true, if_false, specPassSum, cellText]
    decide

theorem checkC2_eq (v : CellVal) (h : raisesUpper v = false) :
    checkC2 v = .ok (specPassLookup v) := by
  cases v with
  | vnone => decide
  | vstr s =>
    by_cases hs : s = ""
    · subst hs; decide
    · have hs' : (s != "") = true := by simpa using hs
      simp [checkC2, truthy, hs', upperVal, specPassLookup, cellText]
  | vint n =>
    have hn : (n != 0) = false := by simpa [raisesUpper] using h
    simp only [checkC2, truthy, hn, Bool.false_eq_true, if_false, specPassLookup, cellText]
    decide

theorem evalBody_eq (wb : Workbook) (p1 p2 : Bool)
    (h1 : checkB2 wb.b2 = .ok p1) (h2 : checkC2 wb.c2 = .ok p2) :
    evalBody wb = .ok (spec_score p1 p2, [rule_line1 p1, rule_line2 p2]) := by
  unfold evalBody
  rw [h1, h2]
  cases p1 <;> cases p2 <;> decide

/-- C1 (amended): for every openable workbook whose checked cells hold no
truthy non-string value, the rubric rules are applied in fixed order, each
passing iff the cell\x27s formula text contains the required pattern
case-insensitively, with one feedback line per rule in rule order and score
`max (100 - penalties of failed rules) 0`, an integer in `[0, 100]`. -/
theorem c1_grading_amended (wb : Workbook)
    (h1 : raisesUpper wb.b2 = false) (h2 : raisesUpper wb.c2 = false) :
    grade_matches_rubric wb := by
  have e1 := checkB2_eq wb.b2 h1
  have e2 := checkC2_eq wb.c2 h2
  have e3 : evaluate_excel_file (.readable wb) =
      (spec_score (specPassSum wb.b2) (specPassLookup wb.c2),
       [rule_line1 (specPassSum wb.b2), rule_line2 (specPassLookup wb.c2)]) := by
    show (match evalBody wb with
          | .ok r => r
          | .error _ => (0, [generic_eval_failure])) = _
    rw [evalBody_eq wb _ _ e1 e2]
  refine ⟨e3, ?_, ?_⟩ <;> rw [e3] <;>
    (cases hb : specPassSum wb.b2 <;> cases hc : specPassLookup wb.c2 <;> decide)

def wb_good : Workbook := ⟨.vstr "=SUM(A1:A10)", .vstr "=XLOOKUP(1,A:A,B:B)"⟩

/-- C1 witness: the amended grading claim evaluated on a concrete workbook
with both rules satisfied. -/
theorem c1_grading_amended_witness :
    raisesUpper wb_good.b2 = false ∧ raisesUpper wb_good.c2 = false ∧
      grade_matches_rubric wb_good :=
  ⟨by decide, by decide, c1_grading_amended wb_good (by decide) (by decide)⟩

/-- C1 counterexample: an openable workbook whose B2 cell holds a nonzero
number makes the whole evaluation return the generic failure pair, so the
feedback does not have one line per rule as the claim states. -/
theorem c1_counterexample :
    evaluate_excel_file (.readable ⟨.vint 1, .vstr "=VLOOKUP(A1,B1:C9,2)"⟩) =
      (0, [generic_eval_failure]) ∧
    (evaluate_excel_file (.readable ⟨.vint 1, .vstr "=VLOOKUP(A1,B1:C9,2)"⟩)).2.length ≠ 2 := by
  decide

/-- C10: a workbook whose C2 cell holds a truthy non-string (a number) makes
the case-insensitive check raise, and the handler returns score 0 with the
single generic failure line — even though B2 holds a passing SUM formula. -/
theorem c10_truthy_nonstring_generic_failure :
    checkC2 (.vint 7) = .error () ∧
    specPassSum (.vstr "=sum(a1:a10)") = true ∧
    evaluate_excel_file (.readable ⟨.vstr "=sum(a1:a10)", .vint 7⟩) =
      (0, [generic_eval_failure]) ∧
    (evaluate_excel_file (.readable ⟨.vstr "=sum(a1:a10)", .vint 7⟩)).2.length = 1 := by
  decide

/-- C6: an unreadable submission grades to score 0 with exactly one generic
feedback line, and the upload request (when receiving the file succeeds)
still answers with a success payload carrying a report. -/
theorem c6_unreadable_recovered :
    evaluate_excel_file .unreadable = (0, [generic_eval_failure]) ∧
    (evaluate_excel_file .unreadable).2.length = 1 ∧
    (∀ (env : UploadEnv) (st : Option Session), env.writeOk = true →
      ∃ r : String, (upload_solution env st .unreadable).2 = .report r) := by
  refine ⟨rfl, rfl, ?_⟩
  intro env st h
  unfold upload_solution
  rw [if_pos h]
  cases st <;> exact ⟨_, rfl⟩

/-- C6 witness: the upload conclusion instantiated at concrete inputs. -/
theorem c6_unreadable_recovered_witness :
    uenv0.writeOk = true ∧
      ∃ r : String, (upload_solution uenv0 none .unreadable).2 = .report r :=
  ⟨rfl, c6_unreadable_recovered.2.2 uenv0 none rfl⟩

theorem chat_step_start (e : Env) (fs : FS) :
    chat_endpoint e fs none "start" =
      (some ⟨[⟨"assistant", intro_msg⟩, ⟨"assistant", QUESTIONS.getD 0 ""⟩], 1, ""⟩, fs,
        ⟨intro_msg ++ "\n\n" ++ QUESTIONS.getD 0 "", .ongoing, none⟩) := by
  unfold chat_endpoint
  rw [if_pos ⟨by decide, rfl⟩]

theorem chat_step_answer (e : Env) (fs : FS) (s : Session) (msg : String)
    (h : s.turn < QUESTIONS.length) :
    chat_endpoint e fs (some s) msg =
      (some ⟨(s.history ++ [⟨"user", pyStrip msg⟩]) ++ [⟨"assistant", QUESTIONS.getD s.turn ""⟩],
          s.turn + 1, s.conceptual_feedback⟩, fs,
        ⟨QUESTIONS.getD s.turn "", .ongoing, none⟩) := by
  unfold chat_endpoint
  simp [h]

theorem chat_step_close (e : Env) (fs : FS) (s : Session) (msg : String)
    (h : s.turn = QUESTIONS.length) :
    chat_endpoint e fs (some s) msg =
      (if (create_task_excel e.flags fs).2 then
        (some ⟨s.history ++ [⟨"user", pyStrip msg⟩], s.turn + 1,
            get_llm_response e.oracle (s.history ++ [⟨"user", pyStrip msg⟩]) true⟩,
          (create_task_excel e.flags fs).1,
          ⟨task_ready_msg, .task_ready,
            some (get_llm_response e.oracle (s.history ++ [⟨"user", pyStrip msg⟩]) true)⟩)
      else
        (some ⟨s.history ++ [⟨"user", pyStrip msg⟩], s.turn,
            get_llm_response e.oracle (s.history ++ [⟨"user", pyStrip msg⟩]) true⟩,
          (create_task_excel e.flags fs).1,
          ⟨task_failed_msg, .error, none⟩)) := by
  unfold chat_endpoint
  simp [h]

theorem chat_step_fallback (e : Env) (fs : FS) (s : Session) (msg : String)
    (h : QUESTIONS.length < s.turn) :
    chat_endpoint e fs (some s) msg =
      (some ⟨s.history ++ [⟨"user", pyStrip msg⟩], s.turn, s.conceptual_feedback⟩, fs,
        ⟨already_issued_msg, .task_ready, none⟩) := by
  have h1 : ¬ s.turn < QUESTIONS.length := by omega
  have h2 : ¬ s.turn = QUESTIONS.length := by omega
  unfold chat_endpoint
  simp [h1, h2]

/-- Stepping any existing session: the entry stays present, the turn counter
moves by 0 or 1 (1 only from within the conceptual range), and the history
is only ever extended at the end. -/
theorem chat_step_some (e : Env) (fs : FS) (s : Session) (msg : String) :
    ∃ s2 : Session, (chat_endpoint e fs (some s) msg).1 = some s2 ∧
      s.turn ≤ s2.turn ∧ s2.turn ≤ s.turn + 1 ∧
      (s2.turn = s.turn + 1 → s.turn ≤ QUESTIONS.length) ∧
      ∃ t : List Msg, s2.history = s.history ++ t := by
  rcases Nat.lt_trichotomy s.turn QUESTIONS.length with hlt | heq | hgt
  · rw [chat_step_answer e fs s msg hlt]
    exact ⟨_, rfl, by (try dsimp only); omega, by (try dsimp only); omega, fun _ => by (try dsimp only); omega,
      ⟨[⟨"user", pyStrip msg⟩, ⟨"assistant", QUESTIONS.getD s.turn ""⟩], by simp⟩⟩
  · rw [chat_step_close e fs s msg heq]
    cases hok : (create_task_excel e.flags fs).2 with
    | false =>
      rw [if_neg Bool.false_ne_true]
      exact ⟨_, rfl, by (try dsimp only); omega, by (try dsimp only); omega, fun _ => by (try dsimp only); omega, ⟨[⟨"user", pyStrip msg⟩], rfl⟩⟩
    | true =>
      rw [if_pos rfl]
      exact ⟨_, rfl, by (try dsimp only); omega, by (try dsimp only); omega, fun _ => by (try dsimp only); omega, ⟨[⟨"user", pyStrip msg⟩], rfl⟩⟩
  · rw [chat_step_fallback e fs s msg hgt]
    exact ⟨_, rfl, by (try dsimp only); omega, by (try dsimp only); omega,
      fun hh => by dsimp only at hh; omega, ⟨[⟨"user", pyStrip msg⟩], rfl⟩⟩

/-- Running k answer turns from inside the conceptual range advances the
turn counter by k and extends the history by 2 entries per turn. -/
theorem run_turns_conceptual (turns : List (Env × String)) :
    ∀ (fs : FS) (s : Session), s.turn + turns.length ≤ QUESTIONS.length →
      ∃ s2 : Session, (run_turns turns fs (some s)).1 = some s2 ∧
        s2.turn = s.turn + turns.length ∧
        s2.history.length = s.history.length + 2 * turns.length := by
  induction turns with
  | nil =>
    intro fs s h
    exact ⟨s, rfl, by simp, by simp⟩
  | cons t rest ih =>
    intro fs s h
    obtain ⟨te, tm⟩ := t
    have hlt : s.turn < QUESTIONS.length := by
      simp only [List.length_cons] at h
      omega
    simp only [run_turns]
    rw [chat_step_answer te fs s tm hlt]
    obtain ⟨s2, h1, h2, h3⟩ :=
      ih fs ⟨(s.history ++ [⟨"user", pyStrip tm⟩]) ++ [⟨"assistant", QUESTIONS.getD s.turn ""⟩],
        s.turn + 1, s.conceptual_feedback⟩
        (by dsimp only; simp only [List.length_cons] at h; omega)
    refine ⟨s2, h1, ?_, ?_⟩
    · dsimp only at h2
      simp only [List.length_cons]
      omega
    · dsimp only at h3
      simp only [List.length_append, List.length_cons, List.length_nil] at h3 ⊢
      omega

/-- The session created by the start turn. -/
def start_session : Session :=
  ⟨[⟨"assistant", intro_msg⟩, ⟨"assistant", QUESTIONS.getD 0 ""⟩], 1, ""⟩

/-- C2: starting a fresh session and processing k conceptual answers with
k < size(QuestionBank) leaves the stored turn counter at k+1; and on any
single inbound turn for an existing session the turn counter grows by at
most 1, never moves down, and never exceeds size(QuestionBank)+1. -/
theorem c2_turn_index :
    (∀ (e : Env) (fs : FS) (turns : List (Env × String)),
      turns.length < QUESTIONS.length →
      ∃ s2 : Session,
        (run_turns turns (chat_endpoint e fs none "start").2.1
          (chat_endpoint e fs none "start").1).1 = some s2 ∧
        s2.turn = turns.length + 1) ∧
    (∀ (e : Env) (fs : FS) (s : Session) (msg : String),
      ∃ s2 : Session, (chat_endpoint e fs (some s) msg).1 = some s2 ∧
        s.turn ≤ s2.turn ∧ s2.turn ≤ s.turn + 1 ∧
        (s.turn ≤ QUESTIONS.length + 1 → s2.turn ≤ QUESTIONS.length + 1)) := by
  constructor
  · intro e fs turns hlen
    rw [chat_step_start e fs]
    obtain ⟨s2, h1, h2, h3⟩ := run_turns_conceptual turns fs start_session
      (by simp [start_session, QUESTIONS] at hlen ⊢; omega)
    refine ⟨s2, h1, ?_⟩
    simp only [start_session] at h2
    omega
  · intro e fs s msg
    obtain ⟨s2, h1, h2, h3, h4, _⟩ := chat_step_some e fs s msg
    exact ⟨s2, h1, h2, h3, fun hb => by
      rcases Nat.lt_or_ge s2.turn (s.turn + 1) with hc | hc
      · omega
      · have := h4 (by omega)
        omega⟩

/-- C2 witness: the after-k-answers conclusion instantiated at k = 0. -/
theorem c2_turn_index_witness :
    ([] : List (Env × String)).length < QUESTIONS.length ∧
    ∃ s2 : Session,
      (run_turns [] (chat_endpoint env0 fs0 none "start").2.1
        (chat_endpoint env0 fs0 none "start").1).1 = some s2 ∧
      s2.turn = ([] : List (Env × String)).length + 1 :=
  ⟨by decide, c2_turn_index.1 env0 fs0 [] (by decide)⟩

/-- C5: the history of a session is append-only across chat turns (each turn
only appends a suffix), and after starting fresh and answering k questions
with k < size(QuestionBank) its length is exactly 2 + 2k. -/
theorem c5_history :
    (∀ (e : Env) (fs : FS) (turns : List (Env × String)),
      turns.length < QUESTIONS.length →
      ∃ s2 : Session,
        (run_turns turns (chat_endpoint e fs none "start").2.1
          (chat_endpoint e fs none "start").1).1 = some s2 ∧
        s2.history.length = 2 + 2 * turns.length) ∧
    (∀ (e : Env) (fs : FS) (s : Session) (msg : String),
      ∃ s2 : Session, (chat_endpoint e fs (some s) msg).1 = some s2 ∧
        ∃ t : List Msg, s2.history = s.history ++ t) := by
  constructor
  · intro e fs turns hlen
    rw [chat_step_start e fs]
    obtain ⟨s2, h1, h2, h3⟩ := run_turns_conceptual turns fs start_session
      (by simp [start_session, QUESTIONS] at hlen ⊢; omega)
    refine ⟨s2, h1, ?_⟩
    simp only [start_session] at h3
    simp only [List.length_cons, List.length_nil] at h3
    omega
  · intro e fs s msg
    obtain ⟨s2, h1, _, _, _, ht⟩ := chat_step_some e fs s msg
    exact ⟨s2, h1, ht⟩

/-- C5 witness: the history-length conclusion instantiated at k = 0. -/
theorem c5_history_witness :
    ([] : List (Env × String)).length < QUESTIONS.length ∧
    ∃ s2 : Session,
      (run_turns [] (chat_endpoint env0 fs0 none "start").2.1
        (chat_endpoint env0 fs0 none "start").1).1 = some s2 ∧
      s2.history.length = 2 + 2 * ([] : List (Env × String)).length :=
  ⟨by decide, c5_history.1 env0 fs0 [] (by decide)⟩

/-- C3 counterexample: for a session whose task is already issued
(turn = size(QuestionBank)+1 = 3), a plain chat turn does answer with
`task_ready`, but it mutates the session — the user message is appended to
the history — so the turn is not mutation-free as the claim states. -/
theorem c3_counterexample :
    (chat_endpoint env0 fs0 (some ⟨[], 3, ""⟩) "hello").2.2.status = Status.task_ready ∧
    (chat_endpoint env0 fs0 (some ⟨[], 3, ""⟩) "hello").1 ≠ some ⟨[], 3, ""⟩ ∧
    (chat_endpoint env0 fs0 (some ⟨[], 3, ""⟩) "hello").1 = some ⟨[⟨"user", "hello"⟩], 3, ""⟩ := by
  decide

/-- C3 (amended): in the task-issued state a plain chat turn answers
"download the task" with status `task_ready`, leaves the turn counter,
the stored feedback and the file system unchanged, and appends exactly the
user\x27s message to the history; and a successful close transition moves the
turn counter to size(QuestionBank)+1, so a repeated call falls into that
mutation-light branch and does not regenerate the artifact. -/
theorem c3_task_issued_amended :
    (∀ (e : Env) (fs : FS) (s : Session) (msg : String),
      s.turn = QUESTIONS.length + 1 →
      (chat_endpoint e fs (some s) msg).1 =
        some ⟨s.history ++ [⟨"user", pyStrip msg⟩], s.turn, s.conceptual_feedback⟩ ∧
      (chat_endpoint e fs (some s) msg).2.1 = fs ∧
      (chat_endpoint e fs (some s) msg).2.2 =
        ⟨already_issued_msg, Status.task_ready, none⟩) ∧
    (∀ (e : Env) (fs : FS) (s : Session) (msg : String),
      s.turn = QUESTIONS.length →
      (chat_endpoint e fs (some s) msg).2.2.status = Status.task_ready →
      ∃ s2 : Session, (chat_endpoint e fs (some s) msg).1 = some s2 ∧
        s2.turn = QUESTIONS.length + 1) := by
  constructor
  · intro e fs s msg h
    rw [chat_step_fallback e fs s msg (by omega)]
    exact ⟨rfl, rfl, rfl⟩
  · intro e fs s msg h hstat
    rw [chat_step_close e fs s msg h] at hstat ⊢
    cases hok : (create_task_excel e.flags fs).2 with
    | false =>
      rw [hok, if_neg Bool.false_ne_true] at hstat
      dsimp only at hstat
      cases hstat
    | true =>
      rw [if_pos rfl]
      exact ⟨_, rfl, by dsimp only; omega⟩

/-- C3 witness: the amended task-issued conclusion at a concrete session. -/
theorem c3_task_issued_amended_witness :
    (⟨[], 3, ""⟩ : Session).turn = QUESTIONS.length + 1 ∧
    ((chat_endpoint env0 fs0 (some ⟨[], 3, ""⟩) "hello").1 =
        some ⟨([] : List Msg) ++ [⟨"user", pyStrip "hello"⟩], (⟨[], 3, ""⟩ : Session).turn, ""⟩ ∧
      (chat_endpoint env0 fs0 (some ⟨[], 3, ""⟩) "hello").2.1 = fs0 ∧
      (chat_endpoint env0 fs0 (some ⟨[], 3, ""⟩) "hello").2.2 =
        ⟨already_issued_msg, Status.task_ready, none⟩) :=
  ⟨by decide, c3_task_issued_amended.1 env0 fs0 ⟨[], 3, ""⟩ "hello" (by decide)⟩

/-- C4: in the close-conceptual state (turn = size(QuestionBank)), when the
artifact generator fails the chat turn answers with status `error` and the
stored turn counter is unchanged, so the close transition can be retried. -/
theorem c4_generator_failure (e : Env) (fs : FS) (s : Session) (msg : String)
    (h : s.turn = QUESTIONS.length)
    (hfail : (create_task_excel e.flags fs).2 = false) :
    (chat_endpoint e fs (some s) msg).2.2.status = Status.error ∧
    ∃ s2 : Session, (chat_endpoint e fs (some s) msg).1 = some s2 ∧
      s2.turn = s.turn ∧ s2.turn = QUESTIONS.length := by
  rw [chat_step_close e fs s msg h, if_neg (by rw [hfail]; exact Bool.false_ne_true)]
  exact ⟨rfl,
    ⟨s.history ++ [⟨"user", pyStrip msg⟩], s.turn,
      get_llm_response e.oracle (s.history ++ [⟨"user", pyStrip msg⟩]) true⟩,
    rfl, rfl, h⟩

def env_gen_fail : Env := ⟨fun _ => Except.ok "ok", ⟨false, true⟩⟩

/-- C4 witness: the generator-failure conclusion at concrete inputs. -/
theorem c4_generator_failure_witness :
    (⟨[], 2, ""⟩ : Session).turn = QUESTIONS.length ∧
    (create_task_excel env_gen_fail.flags fs0).2 = false ∧
    ((chat_endpoint env_gen_fail fs0 (some ⟨[], 2, ""⟩) "ans").2.2.status = Status.error ∧
      ∃ s2 : Session, (chat_endpoint env_gen_fail fs0 (some ⟨[], 2, ""⟩) "ans").1 = some s2 ∧
        s2.turn = (⟨[], 2, ""⟩ : Session).turn ∧ s2.turn = QUESTIONS.length) :=
  ⟨by decide, by decide,
    c4_generator_failure env_gen_fail fs0 ⟨[], 2, ""⟩ "ans" (by decide) (by decide)⟩

/-- C7: every call of `create_task_excel` writes the blank header-only
template iff it is absent, never overwrites an existing template, and — when
the call completes — overwrites the task slot with a fresh copy of the
template, regardless of what was there before. -/
theorem c7_artifact (flags : IOFlags) (fs : FS) :
    (create_task_excel flags fs).1.template = some (fs.template.getD blank_template) ∧
    (∀ t : SheetContent, fs.template = some t →
      (create_task_excel flags fs).1.template = some t) ∧
    (fs.template = none → (create_task_excel flags fs).1.template = some blank_template) ∧
    ((create_task_excel flags fs).2 = true →
      (create_task_excel flags fs).1.task = some (fs.template.getD blank_template)) := by
  obtain ⟨l, sv⟩ := flags
  cases l <;> cases sv <;>
    refine ⟨rfl, fun t ht => by rw [create_task_excel, ht]; rfl, fun hn => by rw [create_task_excel, hn]; rfl, fun hok => ?_⟩ <;>
    first
      | rfl
      | cases hok

/-- C7 witness: with the template absent and a stale task copy present, a
successful call creates the blank template and overwrites the task copy. -/
theorem c7_artifact_witness :
    (⟨none, some [("Z9", "stale")]⟩ : FS).template = none ∧
    (create_task_excel ⟨true, true⟩ ⟨none, some [("Z9", "stale")]⟩).1.template =
      some blank_template ∧
    (create_task_excel ⟨true, true⟩ ⟨none, some [("Z9", "stale")]⟩).2 = true ∧
    (create_task_excel ⟨true, true⟩ ⟨none, some [("Z9", "stale")]⟩).1.task =
      some ((⟨none, some [("Z9", "stale")]⟩ : FS).template.getD blank_template) :=
  ⟨rfl,
    (c7_artifact ⟨true, true⟩ ⟨none, some [("Z9", "stale")]⟩).2.2.1 rfl,
    rfl,
    (c7_artifact ⟨true, true⟩ ⟨none, some [("Z9", "stale")]⟩).2.2.2 rfl⟩

/-- C8: whenever the external completion call fails — for any conversation
and either prompt mode — `get_llm_response` returns the fixed fallback
string; no exception escapes the boundary. -/
theorem c8_llm_fallback (oracle : List Msg → Except String String)
    (messages : List Msg) (final_prompt : Bool) (err : String)
    (h : oracle (full_conversation messages final_prompt) = .error err) :
    get_llm_response oracle messages final_prompt = llm_fallback := by
  unfold get_llm_response
  rw [h]

def failing_oracle : List Msg → Except String String := fun _ => .error "timeout"

/-- C8 witness: the fallback conclusion at a concrete failing oracle. -/
theorem c8_llm_fallback_witness :
    failing_oracle (full_conversation [] true) = .error "timeout" ∧
    get_llm_response failing_oracle [] true = llm_fallback :=
  ⟨rfl, c8_llm_fallback failing_oracle [] true "timeout" rfl⟩

/-- C9: a successful upload with an existing session appends one grading
summary line to the history, obtains final-review feedback on that full
history, deletes the session, and answers with the combined report; any
later chat turn then behaves exactly as for an unknown session id. -/
theorem c9_upload_terminates (env : UploadEnv) (s : Session) (sub : Submission)
    (h : env.writeOk = true) :
    (upload_solution env (some s) sub).1 = none ∧
    (upload_solution env (some s) sub).2 =
      .report (mkReport (evaluate_excel_file sub).1 (evaluate_excel_file sub).2
        (get_llm_response env.oracle
          (s.history ++
            [grading_summary (evaluate_excel_file sub).1 (evaluate_excel_file sub).2]) true)) ∧
    (∀ (ce : Env) (cfs : FS) (msg : String),
      chat_endpoint ce cfs (upload_solution env (some s) sub).1 msg =
        chat_endpoint ce cfs none msg) := by
  unfold upload_solution
  rw [if_pos h]
  exact ⟨rfl, rfl, fun ce cfs msg => rfl⟩

/-- C9 witness: the session-terminating conclusion at concrete inputs. -/
theorem c9_upload_terminates_witness :
    uenv0.writeOk = true ∧
    ((upload_solution uenv0 (some ⟨[], 3, ""⟩) .unreadable).1 = none ∧
      (upload_solution uenv0 (some ⟨[], 3, ""⟩) .unreadable).2 =
        .report (mkReport (evaluate_excel_file .unreadable).1
          (evaluate_excel_file .unreadable).2
          (get_llm_response uenv0.oracle
            (([] : List Msg) ++
              [grading_summary (evaluate_excel_file .unreadable).1
                (evaluate_excel_file .unreadable).2]) true)) ∧
      (∀ (ce : Env) (cfs : FS) (msg : String),
        chat_endpoint ce cfs (upload_solution uenv0 (some ⟨[], 3, ""⟩) .unreadable).1 msg =
          chat_endpoint ce cfs none msg)) :=
  ⟨rfl, c9_upload_terminates uenv0 ⟨[], 3, ""⟩ .unreadable rfl⟩

end Interview
